import Mathlib

/-!
Verification development for the `flow` playback engine core.

Shallow embedding of the parts of the `flow` repository that the specification's
testable claims are about:

* `src/core/player.rs` — `TimeMarker` (playhead), `Player` with its `skip`,
  `cue`, `load` and `play` operations, and the symphonia time-base conversions
  (`TimeBase::calc_time` / `TimeBase::calc_timestamp`) those call into;
* `src/core/analyzer.rs` — `Analyzer::decode` and the `PreviewSample` type;
* `src/view/model/track.rs` — the preview buffer reads `live_preview`,
  `preview` and `progress`.

Modelling conventions:

* machine integers (`u64`, `u32`, `usize`) are `Nat`; none of the claims
  concern wrap-around, and all concrete inputs used below are far below any
  overflow boundary;
* `f32`/`f64` arithmetic is modelled as exact rational arithmetic (`ℚ`), with
  Rust's truncating float-to-integer cast modelled as `Int.toNat ∘ Int.floor`
  (it truncates toward zero and saturates below at 0, which for the
  non-negative values arising here coincides with `Int.toNat ∘ Int.floor`);
  every concrete input evaluated in a theorem below involves only small
  dyadic-or-integer values for which `f32`/`f64` arithmetic is exact, so the
  rational model agrees with the source bit-for-bit there;
* fallible code is `Option`-valued: `none` models a panic (a Rust `panic!`,
  `unwrap`/`expect` on a failed value, a failed `assert!`, or an out-of-range
  slice index);
* external collaborators (file open, format probe, codec construction, the
  audio device, packet decoding) are parameters: each call site's outcome is
  passed in as an explicit argument, exactly where the source performs the
  call.
-/

set_option autoImplicit false

namespace Flow

/-! ## Symphonia time units (`symphonia::core::units`, as used by `player.rs`) -/

/-- Model of `symphonia::core::units::TimeBase`: a rational `numer/denom` seconds per
timestamp tick. -/
structure TimeBase where
  numer : Nat
  denom : Nat
deriving DecidableEq

/-- Model of `symphonia::core::units::Time`: a whole number of seconds plus a fractional
part. `seconds` is a `u64` (so it cannot be negative); `frac` is an `f64` in
`[0, 1)`, modelled as an exact rational. -/
structure Time where
  seconds : Nat
  frac : ℚ
deriving DecidableEq

/-- Model of `TimeBase::calc_time`: convert a timestamp to `Time`.  The source asserts
`numer > 0 && denom > 0` (modelled `none`) and, on the fast path
(`ts * numer < 2^52`, the only path exercised here), computes the seconds by
integer division and the fraction by float division; the float division is
modelled as exact rational division. -/
def TimeBase.calc_time (tb : TimeBase) (ts : Nat) : Option Time :=
  if tb.numer = 0 ∨ tb.denom = 0 then none
  else
    let dividend := ts * tb.numer
    some ⟨dividend / tb.denom, ((dividend % tb.denom : Nat) : ℚ) / (tb.denom : ℚ)⟩

/-- Model of `TimeBase::calc_timestamp`: convert a `Time` back to a timestamp.  The
source asserts `numer > 0 && denom > 0` and `0 ≤ frac < 1` (both modelled
`none`) and, on the fast path (`seconds * denom ≤ 2^52`), computes
`(seconds*denom*(1/numer)) as u64 + ((1/numer)*denom*frac) as u64`; the float
products are modelled as exact rational arithmetic, the truncating casts as
floors of the (non-negative) values. -/
def TimeBase.calc_timestamp (tb : TimeBase) (t : Time) : Option Nat :=
  if tb.numer = 0 ∨ tb.denom = 0 then none
  else if ¬ (0 ≤ t.frac ∧ t.frac < 1) then none
  else
    let a := t.seconds * tb.denom / tb.numer
    let b := Int.toNat ⌊(tb.denom : ℚ) * t.frac / (tb.numer : ℚ)⌋
    some (a + b)

/-- The fields of `symphonia::core::codecs::CodecParameters` the program
reads. -/
structure CodecParameters where
  time_base : Option TimeBase
  sample_rate : Option Nat
  n_frames : Option Nat
deriving DecidableEq

/-- Model of `symphonia::core::formats::Track`: the track id plus codec parameters. -/
structure Track where
  id : Nat
  codec_params : CodecParameters
deriving DecidableEq

/-! ## `TimeMarker` (`player.rs` 52–103) -/

/-- Model of `TimeMarker`: a playhead position, stored as a native timestamp together
with the owning track (for time-base conversions). -/
structure TimeMarker where
  ts : Nat
  track : Track
deriving DecidableEq

/-- Model of `TimeMarker::new`: starts at timestamp 0. -/
def TimeMarker.new (track : Track) : TimeMarker :=
  { ts := 0, track := track }

/-- Model of `TimeMarker::add_time` (`player.rs` 66–84): convert the current timestamp
to `Time`, add the offset's seconds and fractional parts component-wise, and
convert back.  `none` models the panics: `time_base.unwrap()` when the track
has no time base, and the `assert!(0 ≤ frac < 1)` inside `calc_timestamp`
(which fires whenever the two fractional parts sum to 1 or more).  Note there
is no subtraction and no saturation anywhere: both components are added. -/
def TimeMarker.add_time (offset : Time) (tm : TimeMarker) : Option TimeMarker :=
  match tm.track.codec_params.time_base with
  | none => none
  | some tb =>
    match tb.calc_time tm.ts with
    | none => none
    | some current =>
      let new_time : Time :=
        { seconds := current.seconds + offset.seconds, frac := current.frac + offset.frac }
      match tb.calc_timestamp new_time with
      | none => none
      | some new_ts => some { tm with ts := new_ts }

/-- Model of `TimeMarker::go_to` (`player.rs` 86–88): jump to an absolute timestamp. -/
def TimeMarker.go_to (ts : Nat) (tm : TimeMarker) : TimeMarker :=
  { tm with ts := ts }

/-! ## Player state machine (`player.rs` 21–50, 105–122) -/

/-- Model of `SkipType` (`player.rs` 21–24). -/
inductive SkipType where
  | Forward
  | Backward
deriving DecidableEq

/-- Model of `PlayerState` (`player.rs` 44–50). -/
inductive PlayerState where
  | Unloaded
  | Paused
  | Playing
  | Closed
deriving DecidableEq

/-- The `Player` struct (`player.rs` 105–122).  The format reader, decoder,
audio output and signal spec are external resources; only their presence
(`Some`/`None` in the source) is state, so they are modelled as `Bool`. -/
structure Player where
  state : PlayerState
  position_marker : Option TimeMarker
  cue_point_marker : Option TimeMarker
  reader : Bool
  decoder : Bool
  output : Bool
  spec : Bool
  track : Option Track
deriving DecidableEq

/-- Model of `Player::skip` (`player.rs` 261–278).  When the track, reader and playhead
are all present, the playhead is advanced with `add_time` FIRST and the seek is
issued to the already-advanced timestamp; the seek's result is bound to `res`
and never read, so the `seekOk` argument (the outcome of `reader.seek`) is
unused here exactly as in the source.  Returns the player after the call
together with the timestamp handed to `reader.seek` (`none` when the guard
failed and no seek was issued); `none` overall models a panic inside
`add_time`. -/
def Player.skip (offset : Time) (t : SkipType) (seekOk : Bool) (p : Player) :
    Option (Player × Option Nat) :=
  match p.track, p.reader, p.position_marker with
  | some _track, true, some playhead =>
    match TimeMarker.add_time offset playhead with
    | none => none
    | some playhead2 =>
      some ({ p with position_marker := some playhead2 }, some playhead2.ts)
  | _, _, _ => some (p, none)

/-- Model of `Player::cue` (`player.rs` 212–232).  Not `Playing`: store the current
playhead as the cue point.  `Playing` with track, reader and a cue point
present: first `track.codec_params.sample_rate.unwrap()` (line 221) — a panic,
modelled `none`, when the track declares no sample rate — then set the
playhead to the cue point and issue a seek to the cue point's timestamp
(result ignored by the source); otherwise a no-op.  Returns the player
together with the timestamp handed to `reader.seek`, if any. -/
def Player.cue (p : Player) : Option (Player × Option Nat) :=
  if p.state ≠ PlayerState.Playing then
    some ({ p with cue_point_marker := p.position_marker }, none)
  else
    match p.track, p.reader, p.cue_point_marker with
    | some track, true, some cuePt =>
      match track.codec_params.sample_rate with
      | none => none
      | some _sample_rate =>
        some ({ p with position_marker := some cuePt }, some cuePt.ts)
    | _, _, _ => some (p, none)

/-- Outcomes of the external calls performed by `Player::load`
(`player.rs` 201–210, 356–414): file open and format probe in `init_reader`,
default-track lookup, codec construction and the first packet's read/decode in
`init_decoder`, and the audio-device open in `init_output`. -/
structure LoadEnv where
  openOk : Bool
  probeOk : Bool
  defaultTrack : Option Track
  codecOk : Bool
  firstPacketOk : Bool
  firstDecodeOk : Bool
  outputOk : Bool
deriving DecidableEq

/-- Model of `Player::load` (`player.rs` 201–210) inlining `init_reader` (380–391),
`init_decoder` (393–414) and `init_output` (356–378).  Every failure of an
external call hits an `expect`/`unwrap` in the source and panics the engine
thread, modelled `none`; there is no error return and no fallback to the prior
state.  On success: the reader is installed, the track is recorded only if no
track was stored yet (`if let None = self.track`), the state becomes `Paused`,
and the position and cue markers are both reset to the track's start. -/
def Player.load (env : LoadEnv) (p : Player) : Option Player :=
  if ¬ env.openOk then none
  else if ¬ env.probeOk then none
  else
    let p1 := { p with reader := true }
    match env.defaultTrack with
    | none => none
    | some tr =>
      let p2 := if p1.track = none then { p1 with track := some tr } else p1
      if ¬ env.codecOk then none
      else if ¬ env.firstPacketOk then none
      else if ¬ env.firstDecodeOk then none
      else
        let p3 := { p2 with spec := true, decoder := true }
        if ¬ env.outputOk then none
        else
          let p4 := { p3 with output := true, state := PlayerState.Paused }
          match p4.track with
          | some tr2 =>
            some { p4 with
                     position_marker := some (TimeMarker.new tr2),
                     cue_point_marker := some (TimeMarker.new tr2) }
          | none => some p4

/-- A compressed packet, reduced to the only field the engine reads from it:
its timestamp. -/
structure Packet where
  ts : Nat
deriving DecidableEq

/-- Model of `Player::play` (`player.rs` 280–313), one decode-and-write step.
`nextPacket` is the outcome of `reader.next_packet()` (`?` propagates its
error as the step's return value, which the caller `event_loop` discards);
`decodeOk` is whether `decoder.decode(&packet)` succeeds — the source calls
`.unwrap()` on it, so a decode error panics (`none`), and note the playhead
has ALREADY been set to the packet's timestamp by then; `writeOk` is whether
`out.write(..)` succeeds — the `Err` branch is `panic!("Failed to write to
output device")` (`none`).  A missing reader/decoder/output/track hits
`panic!("Not everything was initialized")` (`none`). -/
def Player.play (nextPacket : Except Unit Packet) (decodeOk writeOk : Bool) (p : Player) :
    Option (Player × Except Unit Unit) :=
  match p.reader, p.decoder, p.output, p.track with
  | true, true, true, some _track =>
    match nextPacket with
    | Except.error e => some (p, Except.error e)
    | Except.ok packet =>
      let p1 :=
        match p.position_marker with
        | some pos => { p with position_marker := some (TimeMarker.go_to packet.ts pos) }
        | none => p
      if ¬ decodeOk then none
      else if writeOk then some (p1, Except.ok ())
      else none
  | _, _, _, _ => none

/-- Model of `Analyzer::decode` (`analyzer.rs` 149–173).  `reader.next_packet()?`
propagates the reader's error; a successful decode returns the interleaved
sample buffer (modelled by the packet itself).  The `Err` branch's comment
says "Decode errors are not fatal. Print the error message and try to decode
the next packet as usual." but the code it guards is `panic!("error")`,
modelled `none`. -/
def Analyzer.decode (nextPacket : Except Unit Packet) (decodeOk : Bool) :
    Option (Except Unit Packet) :=
  match nextPacket with
  | Except.error e => some (Except.error e)
  | Except.ok packet => if decodeOk then some (Except.ok packet) else none

/-! ## Observable micro-states of one decode-and-write step

The playhead lives in an `Arc<Mutex<Option<TimeMarker>>>` shared with the UI;
`Player::play` locks it only for the `go_to` on line 289–291 and releases it
before the decode and the sink write on line 296, so a concurrent snapshot
reader can observe the state between the playhead update and the write. -/

/-- A state observable by a concurrent reader: the playhead's timestamp and
the timestamps of the packets whose bytes have been written to the audio
sink. -/
structure EngineObs where
  playheadTs : Option Nat
  sinkWritten : List Nat
deriving DecidableEq

/-- The sequence of states a concurrent snapshot reader can observe during one
`Player::play` decode-and-write step (`player.rs` 288–307), in program order:
first the state after `pos.go_to(packet.ts())` (the playhead update), then —
only if the decode and the write both succeed — the state after the sink
write.  A decode failure panics after the playhead update, so the trace ends
with the first state; likewise a write failure. -/
def playObservations (packet : Packet) (decodeOk writeOk : Bool) (s : EngineObs) :
    List EngineObs :=
  let s1 :=
    match s.playheadTs with
    | some _ => { s with playheadTs := some packet.ts }
    | none => s
  if ¬ decodeOk then [s1]
  else if writeOk then [s1, { s1 with sinkWritten := s1.sinkWritten ++ [packet.ts] }]
  else [s1]

/-! ## Preview buffer (`analyzer.rs` 33–55, `track.rs` 54–153) -/

/-- Model of `PreviewSample` (`analyzer.rs` 36–41): one downsampled amplitude triple.
The `f32` components are modelled as exact rationals. -/
structure PreviewSample where
  lows : ℚ
  mids : ℚ
  highs : ℚ
deriving DecidableEq

/-- The zero-valued preview sample (what the source writes as
`PreviewSample { mids: 0.0, lows: 0.0, highs: 0.0 }` when padding). -/
def PreviewSample.zero : PreviewSample :=
  { lows := 0, mids := 0, highs := 0 }

/-- Component-wise addition, as in `impl Sum for PreviewSample`
(`analyzer.rs` 43–55). -/
def PreviewSample.add (a b : PreviewSample) : PreviewSample :=
  { lows := a.lows + b.lows, mids := a.mids + b.mids, highs := a.highs + b.highs }

/-- Model of `iter.sum::<PreviewSample>()`: fold the component-wise addition starting
from zero (`analyzer.rs` 43–55). -/
def psSum (l : List PreviewSample) : PreviewSample :=
  l.foldl PreviewSample.add PreviewSample.zero

/-- Component-wise division by a scalar, as in the `lows / ...` etc. of
`track.rs` 121–124 and 146–148. -/
def PreviewSample.divBy (a : PreviewSample) (q : ℚ) : PreviewSample :=
  { lows := a.lows / q, mids := a.mids / q, highs := a.highs / q }

/-- Fuel-indexed worker for `chunkList`; the fuel is an upper bound on the
number of chunks and makes the recursion structural. -/
def chunkListGo {α : Type} (k : Nat) : Nat → List α → List (List α)
  | _, [] => []
  | 0, _ :: _ => []
  | fuel + 1, x :: xs => ((x :: xs).take k) :: chunkListGo k fuel ((x :: xs).drop k)

/-- Model of `itertools`' `.chunks(k)`: partition a list into consecutive chunks of
`k` elements, the last chunk possibly shorter.  Faithful for `k ≥ 1`; the
source's call sites with `k = 0` panic inside itertools and are guarded by the
callers below. -/
def chunkList {α : Type} (k : Nat) (l : List α) : List (List α) :=
  chunkListGo k l.length l

/-- Model of `PREVIEW_SAMPLE_RATE` (`analyzer.rs` 33). -/
def PREVIEW_SAMPLE_RATE : Nat := 2205

/-- Model of `Track::live_preview` (`track.rs` 71–129), specialised to
`target_sample_rate = PREVIEW_SAMPLE_RATE` so that `conversion_factor = 1.0`
(the float scaling steps multiply, divide and chunk by 1), and taking the
window's center index `player_pos` directly (the source derives it from the
playhead snapshot; the specification's `read_window(center_index, width)`
quantifies over the center index).  The truncating `as usize` casts are
`Int.toNat ∘ Int.floor`; the panicking slice `preview_buffer[0..k]` with
`k > len` in the left-padding branch is `none`. -/
def live_preview (buf : List PreviewSample) (target_size : Nat) (player_pos : Nat) :
    Option (List PreviewSample) :=
  let dHalf : ℚ := (target_size : ℚ) / 2
  let diff : Int := (player_pos : Int) - ((target_size / 2 : Nat) : Int)
  let unscaled :=
    if 0 ≤ diff then
      let l := Int.toNat ⌊(player_pos : ℚ) - dHalf⌋
      let r := Int.toNat ⌊(player_pos : ℚ) + dHalf⌋
      let r := min r buf.length
      if l < r then some ((buf.drop l).take (r - l)) else some []
    else
      let diffn := diff.natAbs
      let padding := List.replicate diffn PreviewSample.zero
      if 0 < buf.length then
        if target_size - diffn ≤ buf.length then
          some (padding ++ buf.take (target_size - diffn))
        else none
      else some padding
  unscaled.map (fun u => (chunkList 1 u).map (fun chunk => (psSum chunk).divBy 1))

/-- Model of `Track::preview` (`track.rs` 132–153): `conversion_rate` is
`PREVIEW_SAMPLE_RATE / sample_rate`, the chunk size is
`n_frames * conversion_rate / target_size` — computed from the DECLARED total
frame count, not from the buffer's current length — floored by the `as usize`
cast for the partition but used unfloored as the divisor of each chunk's sum.
`none` models the `unwrap` panics on a missing `sample_rate` or `n_frames`,
the itertools panic on a zero chunk size, and (conservatively) the degenerate
float division for `sample_rate = 0` or `target_size = 0`, neither of which
occurs for a real track. -/
def Track.preview (buf : List PreviewSample) (target_size : Nat)
    (n_frames sample_rate : Option Nat) : Option (List PreviewSample) :=
  match n_frames, sample_rate with
  | some nf, some sr =>
    if sr = 0 ∨ target_size = 0 then none
    else
      let conversion_rate : ℚ := (PREVIEW_SAMPLE_RATE : ℚ) / (sr : ℚ)
      let chunks : ℚ := (nf : ℚ) * conversion_rate / (target_size : ℚ)
      let chunkSize := Int.toNat ⌊chunks⌋
      if chunkSize = 0 then none
      else some ((chunkList chunkSize buf).map (fun c => (psSum c).divBy chunks))
  | _, _ => none

/-- Model of `Track::progress` (`track.rs` 54–67).  `res` starts at `0.0` and is only
reassigned when BOTH `n_frames` and `sample_rate` are declared and the buffer
is non-empty; the function then returns `Some((res * 100.).ceil() as u8)`
unconditionally — it never returns `None`.  `sample_rate / PREVIEW_SAMPLE_RATE`
is `u32` integer division; the `as u8` cast saturates at 255 (for an `n_frames`
of 0 the float division yields `NaN`/`+∞`, cast to 0/255 — modelled
explicitly). -/
def Track.progress (preview_len : Nat) (n_frames sample_rate : Option Nat) : Option Nat :=
  match n_frames, sample_rate with
  | some nf, some sr =>
    if 0 < preview_len then
      if nf = 0 then
        if preview_len * (sr / PREVIEW_SAMPLE_RATE) = 0 then some 0 else some 255
      else
        some (min 255 (Int.toNat
          ⌈((preview_len * (sr / PREVIEW_SAMPLE_RATE) : Nat) : ℚ) / (nf : ℚ) * 100⌉))
    else some 0
  | _, _ => some 0

/-! ## Concrete fixtures used by the closed theorems -/

/-- A time base of one tick per second (`numer = denom = 1`); all conversions
through it are exact in `f64`. -/
def tb1 : TimeBase := { numer := 1, denom := 1 }

/-- Codec parameters of a concrete loaded track: time base `tb1`, sample rate
44100 Hz, 441000 total frames (a 10-second track). -/
def cpA : CodecParameters :=
  { time_base := some tb1, sample_rate := some 44100, n_frames := some 441000 }

/-- A concrete loaded track. -/
def trackA : Track := { id := 0, codec_params := cpA }

/-- A fully initialized player, `Playing`, with the playhead and cue point at
timestamp `ts`. -/
def playerA (ts : Nat) : Player :=
  { state := PlayerState.Playing
    position_marker := some { ts := ts, track := trackA }
    cue_point_marker := some { ts := ts, track := trackA }
    reader := true
    decoder := true
    output := true
    spec := true
    track := some trackA }


/-! ## Helper lemmas about `chunkList` -/

/-- Length of the fuel-indexed chunking: with positive chunk size and enough
fuel, the number of chunks is the length divided by `k`, rounded up. -/
theorem chunkListGo_length {α : Type} (k : Nat) (hk : 0 < k) :
    ∀ (fuel : Nat) (l : List α), l.length ≤ fuel →
      (chunkListGo k fuel l).length = (l.length + k - 1) / k := by
  intro fuel
  induction fuel with
  | zero =>
    intro l hl
    have hnil : l = [] := List.length_eq_zero.mp (Nat.le_zero.mp hl)
    subst hnil
    simp [chunkListGo, Nat.div_eq_of_lt (Nat.sub_lt hk Nat.one_pos)]
  | succ n ih =>
    intro l hl
    match l with
    | [] => simp [chunkListGo, Nat.div_eq_of_lt (Nat.sub_lt hk Nat.one_pos)]
    | x :: xs =>
      have hdrop : ((x :: xs).drop k).length ≤ n := by
        simp only [List.length_drop, List.length_cons] at hl ⊢
        omega
      have hrec := ih ((x :: xs).drop k) hdrop
      rw [List.length_drop, List.length_cons] at hrec
      simp only [chunkListGo, List.length_cons, hrec]
      rcases Nat.le_total (xs.length + 1) k with hle | hge
      · have h2 : xs.length + 1 - k + k - 1 = k - 1 := by omega
        have h1 : xs.length + 1 + k - 1 = xs.length + k := by omega
        rw [h2, h1, Nat.add_div_right _ hk,
          Nat.div_eq_of_lt (show k - 1 < k by omega),
          Nat.div_eq_of_lt (show xs.length < k by omega)]
      · have h2 : xs.length + 1 - k + k - 1 = xs.length := by omega
        have h1 : xs.length + 1 + k - 1 = xs.length + k := by omega
        rw [h2, h1, Nat.add_div_right _ hk]

/-- Number of chunks produced by `chunkList` for a positive chunk size. -/
theorem chunkList_length {α : Type} (k : Nat) (hk : 0 < k) (l : List α) :
    (chunkList k l).length = (l.length + k - 1) / k :=
  chunkListGo_length k hk l.length l le_rfl

/-- Averaging a singleton chunk is the identity: summing one sample onto zero
and dividing by one gives the sample back. -/
theorem scale_by_one (x : PreviewSample) : (psSum [x]).divBy 1 = x := by
  cases x
  simp [psSum, PreviewSample.add, PreviewSample.zero, PreviewSample.divBy]

/-- The final scaling pipeline of `live_preview` at conversion factor 1
(chunks of one element, each averaged over one element) is the identity. -/
theorem chunkListGo_one_scale :
    ∀ (fuel : Nat) (l : List PreviewSample), l.length ≤ fuel →
      (chunkListGo 1 fuel l).map (fun c => (psSum c).divBy 1) = l := by
  intro fuel
  induction fuel with
  | zero =>
    intro l hl
    have hnil : l = [] := List.length_eq_zero.mp (Nat.le_zero.mp hl)
    subst hnil
    simp [chunkListGo]
  | succ n ih =>
    intro l hl
    match l with
    | [] => simp [chunkListGo]
    | x :: xs =>
      have hxs : xs.length ≤ n := by
        rw [List.length_cons] at hl
        omega
      simp only [chunkListGo, List.take, List.drop, List.map]
      rw [scale_by_one, ih xs hxs]

/-- Version of `chunkListGo_one_scale` for `chunkList` itself. -/
theorem chunkList_one_scale (l : List PreviewSample) :
    (chunkList 1 l).map (fun c => (psSum c).divBy 1) = l :=
  chunkListGo_one_scale l.length l le_rfl

/-! ## Further fixtures -/

/-- A loaded player that is `Paused` (position and cue at timestamp 3). -/
def pPaused : Player := { playerA 3 with state := PlayerState.Paused }

/-- A loaded `Playing` player with no cue point stored. -/
def pNoCue : Player := { playerA 5 with cue_point_marker := none }

/-- An unloaded player: fresh engine state before any `Load`. -/
def pUnloaded : Player :=
  { state := PlayerState.Unloaded
    position_marker := none
    cue_point_marker := none
    reader := false
    decoder := false
    output := false
    spec := false
    track := none }

/-- Evaluation of `add_time` on `trackA` (time base 1/1) with a whole-second
offset: the offset's seconds are added to the timestamp.  All the `f64`
operations involved are exact here (integers and a zero fraction). -/
theorem add_time_trackA (s ts : Nat) :
    TimeMarker.add_time { seconds := s, frac := 0 } { ts := ts, track := trackA } =
      some { ts := ts + s, track := trackA } := by
  norm_num [TimeMarker.add_time, TimeBase.calc_time, TimeBase.calc_timestamp,
    trackA, cpA, tb1, Nat.mod_one, Nat.mul_one, Nat.div_one]

/-! ## C10 — the skip handler never consults the direction -/

/-- C10: `SkipForward(Δt)` and `SkipBackward(Δt)` have exactly the same effect:
`Player::skip` never reads its `SkipType` argument, so for every offset, every
seek outcome and every player state, the resulting player and the seek issued
to the decoder are identical for both commands. -/
theorem C10_skip_direction_ignored (offset : Time) (seekOk : Bool) (p : Player) :
    Player.skip offset SkipType.Forward seekOk p =
      Player.skip offset SkipType.Backward seekOk p := rfl

/-! ## C6 — cue semantics -/

/-- A track whose codec parameters declare NO sample rate (symphonia's
`sample_rate` is optional). -/
def trackNoSr : Track :=
  { id := 1
    codec_params := { time_base := some tb1, sample_rate := none, n_frames := none } }

/-- A fully initialized `Playing` player over `trackNoSr`, cue point stored at
timestamp 4. -/
def pNoSr : Player :=
  { state := PlayerState.Playing
    position_marker := some { ts := 9, track := trackNoSr }
    cue_point_marker := some { ts := 4, track := trackNoSr }
    reader := true
    decoder := true
    output := true
    spec := true
    track := some trackNoSr }

/-- C6 counterexample: a `Cue` while `Playing` with a loaded track and a
stored cue point at timestamp 4 does NOT always seek and set the playhead —
when the track declares no sample rate, `track.codec_params.sample_rate
.unwrap()` (player.rs 221) panics the engine thread before the seek is issued,
so the command neither sets the playhead to the cue point nor stays
`Playing`. -/
theorem C6_cue_missing_sample_rate_panics :
    Player.cue pNoSr = none ∧
    ¬ (Player.cue pNoSr =
        some ({ pNoSr with position_marker := some { ts := 4, track := trackNoSr } },
          some 4)) :=
  ⟨rfl, by decide⟩

/-- C6 amended: for a loaded track that DECLARES a sample rate, `Cue` while
`Playing` with a stored cue point at `c` succeeds: it issues a seek to `c.ts`
and leaves the playhead equal to the cue point (in particular on seek success)
with the state still `Playing`; `Cue` while not `Playing` stores the current
playhead as the cue point, overwriting the previous one and changing nothing
else; `Cue` while `Playing` with no cue point stored is a no-op.  (Without a
declared sample rate the `Playing`-with-cue-point case instead panics on the
`unwrap` at player.rs 221.) -/
theorem C6_cue_semantics :
    (∀ (p : Player) (c : TimeMarker) (tr : Track) (sr : Nat),
        p.state = PlayerState.Playing → p.track = some tr → p.reader = true →
        p.cue_point_marker = some c → tr.codec_params.sample_rate = some sr →
        (Player.cue p).map (fun r => r.1.position_marker) = some (some c) ∧
        (Player.cue p).map (fun r => r.1.state) = some PlayerState.Playing ∧
        (Player.cue p).map (fun r => r.2) = some (some c.ts)) ∧
    (∀ p : Player, p.state ≠ PlayerState.Playing →
        Player.cue p = some ({ p with cue_point_marker := p.position_marker }, none)) ∧
    (∀ p : Player, p.state = PlayerState.Playing → p.cue_point_marker = none →
        Player.cue p = some (p, none)) := by
  refine ⟨?_, ?_, ?_⟩
  · intro p c tr sr hst htr hrd hcue hsr
    simp [Player.cue, hst, htr, hrd, hcue, hsr]
  · intro p hst
    simp [Player.cue, hst]
  · intro p hst hcue
    cases htr : p.track with
    | none => simp [Player.cue, hst, hcue, htr]
    | some tr =>
      cases hrd : p.reader
      · simp [Player.cue, hst, hcue, htr, hrd]
      · simp [Player.cue, hst, hcue, htr, hrd]

/-- C6 witness: the three cases of `C6_cue_semantics` instantiated at concrete
players — `playerA 7` (playing over `trackA`, which declares 44100 Hz, cue at
7), `pPaused`, and `pNoCue`. -/
theorem C6_cue_semantics_witness :
    ((Player.cue (playerA 7)).map (fun r => r.1.position_marker) =
        some (some { ts := 7, track := trackA }) ∧
     (Player.cue (playerA 7)).map (fun r => r.1.state) = some PlayerState.Playing ∧
     (Player.cue (playerA 7)).map (fun r => r.2) = some (some 7)) ∧
    Player.cue pPaused =
      some ({ pPaused with cue_point_marker := pPaused.position_marker }, none) ∧
    Player.cue pNoCue = some (pNoCue, none) :=
  ⟨C6_cue_semantics.1 (playerA 7) { ts := 7, track := trackA } trackA 44100
      rfl rfl rfl rfl rfl,
   C6_cue_semantics.2.1 pPaused (by decide),
   C6_cue_semantics.2.2 pNoCue rfl rfl⟩

/-! ## C1 — what actually happens to the playhead on a failed skip-seek -/

/-- C1 counterexample: with the playhead at timestamp 0 and a failing seek,
`SkipForward(1 s)` leaves the playhead at timestamp 1, not at its pre-call
value 0 — the playhead is advanced before the seek is issued and is not
restored when the seek fails. -/
theorem C1_seek_failure_playhead_changed :
    (Player.skip { seconds := 1, frac := 0 } SkipType.Forward false (playerA 0)).map
        (fun r => r.1.position_marker) = some (some { ts := 1, track := trackA }) ∧
    (playerA 0).position_marker = some { ts := 0, track := trackA } ∧
    ¬ (some (some ({ ts := 1, track := trackA } : TimeMarker)) =
        some (some ({ ts := 0, track := trackA } : TimeMarker))) := by
  refine ⟨?_, rfl, by decide⟩
  simp [Player.skip, playerA, add_time_trackA 1 0]

/-- C1 amended: on a skip with a loaded track, the playhead is advanced by
`add_time` BEFORE the seek is issued (to the already-advanced timestamp), and
the seek's outcome is ignored: a failing seek leaves the engine in exactly the
state a succeeding seek would (the advanced playhead, everything else,
including the engine state, unchanged) — the failure is absorbed, not treated
as fatal, but the playhead does not keep its pre-call value. -/
theorem C1_skip_after_seek_failure (offset : Time) (t : SkipType) (p : Player)
    (tr : Track) (ph ph2 : TimeMarker)
    (htr : p.track = some tr) (hrd : p.reader = true) (hpm : p.position_marker = some ph)
    (hadd : TimeMarker.add_time offset ph = some ph2) :
    Player.skip offset t false p =
      some ({ p with position_marker := some ph2 }, some ph2.ts) ∧
    Player.skip offset t false p = Player.skip offset t true p := by
  constructor
  · simp [Player.skip, htr, hrd, hpm, hadd]
  · rfl

/-- C1 witness: `C1_skip_after_seek_failure` at `playerA 0` with a one-second
forward skip whose seek fails. -/
theorem C1_skip_after_seek_failure_witness :
    Player.skip { seconds := 1, frac := 0 } SkipType.Forward false (playerA 0) =
      some ({ playerA 0 with position_marker := some { ts := 1, track := trackA } },
        some 1) ∧
    Player.skip { seconds := 1, frac := 0 } SkipType.Forward false (playerA 0) =
      Player.skip { seconds := 1, frac := 0 } SkipType.Forward true (playerA 0) :=
  C1_skip_after_seek_failure { seconds := 1, frac := 0 } SkipType.Forward (playerA 0)
    trackA { ts := 0, track := trackA } { ts := 1, track := trackA }
    rfl rfl rfl (add_time_trackA 1 0)

/-! ## C5 — skip backward does not saturate at zero; it moves forward -/

/-- C5: with the playhead at 1 s, `SkipBackward(2 s)` yields timestamp 3 —
`Player::skip` ignores the direction and ADDS the offset (and `Time.seconds`
is unsigned, so no negative offset can even be passed); the result is neither
0 (the claimed saturation) nor the claimed earlier position, contradicting the
`SkipBackward` message's own doc comment ("Skip backwards a number of
millis"). -/
theorem C5_skip_backward_adds_offset :
    Player.skip { seconds := 2, frac := 0 } SkipType.Backward true (playerA 1) =
      some ({ playerA 1 with position_marker := some { ts := 3, track := trackA } },
        some 3) ∧
    (3 : Nat) ≠ 0 := by
  refine ⟨?_, by decide⟩
  simp [Player.skip, playerA, add_time_trackA 2 1]

/-! ## C4 — load failure panics instead of preserving the prior state -/

/-- Load-call outcomes where opening the media file fails. -/
def envOpenFail : LoadEnv :=
  { openOk := false, probeOk := true, defaultTrack := some trackA,
    codecOk := true, firstPacketOk := true, firstDecodeOk := true, outputOk := true }

/-- Load-call outcomes where the file opens but the format probe fails. -/
def envProbeFail : LoadEnv :=
  { openOk := true, probeOk := false, defaultTrack := some trackA,
    codecOk := true, firstPacketOk := true, firstDecodeOk := true, outputOk := true }

/-- C4 counterexample: a `Load` whose file open fails panics the engine thread
(`expect("failed to open media")` in `init_reader`), modelled `none` — the
engine does not remain in its prior state `pUnloaded`, and nothing is
reported. -/
theorem C4_load_open_failure_panics :
    Player.load envOpenFail pUnloaded = none ∧
    ¬ ((none : Option Player) = some pUnloaded) :=
  ⟨rfl, by decide⟩

/-- C4 amended: when opening the source fails, when the format probe finds no
supported format, or when no default (decodable) track exists, `Player::load`
panics the engine thread (every such failure hits an `expect`/`unwrap`); it
never reports the failure and never survives in its prior state. -/
theorem C4_load_failure_panics (env : LoadEnv) (p : Player)
    (h : env.openOk = false ∨ env.probeOk = false ∨ env.defaultTrack = none) :
    Player.load env p = none := by
  rcases h with h | h | h
  · simp [Player.load, h]
  · simp [Player.load, h]
  · simp [Player.load, h]

/-- C4 witness: `C4_load_failure_panics` at a probe failure over the unloaded
player. -/
theorem C4_load_failure_panics_witness :
    Player.load envProbeFail pUnloaded = none :=
  C4_load_failure_panics envProbeFail pUnloaded (Or.inr (Or.inl rfl))

/-! ## C2 — a recoverable decode error kills the loop instead of being skipped -/

/-- C2: a recoverable decode error is NOT skipped: `Player::play` calls
`.unwrap()` on the decode result, and the error branch of `Analyzer::decode` —
whose own comment says "Decode errors are not fatal. Print the error message
and try to decode the next packet as usual." — executes `panic!("error")`.
Both are modelled `none`: the thread panics and the decode loop terminates,
instead of skipping the packet and continuing. -/
theorem C2_decode_error_panics :
    Player.play (Except.ok { ts := 5 }) false true (playerA 0) = none ∧
    Analyzer.decode (Except.ok { ts := 5 }) false = none :=
  ⟨rfl, rfl⟩

/-! ## C3 — the playhead is updated before the sink write -/

/-- A fresh engine observation: playhead at timestamp 0, nothing written to
the sink yet. -/
def obs0 : EngineObs := { playheadTs := some 0, sinkWritten := [] }

/-- C3 counterexample: during a successful decode-and-write step from a fresh
state, a concurrent reader can observe the playhead already at the new
packet's timestamp 7 while nothing — in particular not the audio for
timestamp 7 — has been written to the sink: the snapshot reader CAN observe a
playhead position ahead of the audio actually written. -/
theorem C3_reader_observes_unwritten_position :
    ({ playheadTs := some 7, sinkWritten := [] } : EngineObs) ∈
      playObservations { ts := 7 } true true obs0 ∧
    ¬ ((7 : Nat) ∈ ({ playheadTs := some 7, sinkWritten := [] } : EngineObs).sinkWritten) := by
  decide

/-- C3 amended: the playhead is updated to the packet's timestamp BEFORE the
packet's audio is written to the sink.  A successful decode-and-write step
produces exactly the observation sequence
[playhead-advanced-but-unwritten, playhead-advanced-and-written]: at the END
of the step the playhead's timestamp has indeed been handed to the sink, but
the intermediate state — observable by a concurrent reader, because the
playhead mutex is released before the write — shows a playhead ahead of the
written audio. -/
theorem C3_playhead_update_precedes_write (packet : Packet) (s : EngineObs) (t0 : Nat)
    (h : s.playheadTs = some t0) :
    playObservations packet true true s =
      [{ s with playheadTs := some packet.ts },
       { playheadTs := some packet.ts, sinkWritten := s.sinkWritten ++ [packet.ts] }] ∧
    packet.ts ∈ s.sinkWritten ++ [packet.ts] := by
  refine ⟨?_, by simp⟩
  simp [playObservations, h]

/-- C3 witness: `C3_playhead_update_precedes_write` at packet timestamp 7 from
the fresh observation `obs0`. -/
theorem C3_playhead_update_precedes_write_witness :
    playObservations { ts := 7 } true true obs0 =
      [{ obs0 with playheadTs := some 7 },
       { playheadTs := some 7, sinkWritten := obs0.sinkWritten ++ [7] }] ∧
    (7 : Nat) ∈ obs0.sinkWritten ++ [7] :=
  C3_playhead_update_precedes_write { ts := 7 } obs0 0 rfl

/-! ## C7 — the windowed live-preview read -/

/-- C7 counterexample: at center 1 and width 4 (so `c < w/2`) over an EMPTY
preview buffer, `live_preview` returns only the single padding entry — 1
entry, not the claimed `w = 4`; and over a one-entry buffer at center 0 the
left-padding branch slices `preview_buffer[0..2]` out of range and panics. -/
theorem C7_window_short_buffer :
    (live_preview [] 4 1).map List.length = some 1 ∧
    ¬ ((1 : Nat) = 4) ∧
    live_preview [PreviewSample.zero] 4 0 = none := by
  refine ⟨by decide, by decide, by decide⟩

/-- C7 amended: for a center `c < w/2`, the padding law holds only when the
buffer is long enough: if the buffer holds at least `w - (w/2 - c)` entries,
the read returns exactly `w` entries whose first `w/2 - c` are the zero value
(left padding) followed by the first `w - (w/2 - c)` buffer entries; an empty
buffer instead yields only the padding, and a non-empty but shorter buffer
panics on an out-of-range slice. -/
theorem C7_window_padding (buf : List PreviewSample) (w c : Nat)
    (hc : c < w / 2) (hlen : w - (w / 2 - c) ≤ buf.length) (hbuf : 0 < buf.length) :
    live_preview buf w c =
      some (List.replicate (w / 2 - c) PreviewSample.zero ++
            buf.take (w - (w / 2 - c))) ∧
    (List.replicate (w / 2 - c) PreviewSample.zero ++
       buf.take (w - (w / 2 - c))).length = w ∧
    (List.replicate (w / 2 - c) PreviewSample.zero ++
       buf.take (w - (w / 2 - c))).take (w / 2 - c) =
      List.replicate (w / 2 - c) PreviewSample.zero := by
  have hdiff : ¬ (0 ≤ (c : Int) - ((w / 2 : Nat) : Int)) := by omega
  have habs : ((c : Int) - ((w / 2 : Nat) : Int)).natAbs = w / 2 - c := by omega
  refine ⟨?_, ?_, ?_⟩
  · simp only [live_preview, if_neg hdiff, habs, if_pos hbuf, if_pos hlen,
      Option.map_some']
    rw [chunkList_one_scale]
  · have hhalf : w / 2 - c ≤ w := by omega
    simp only [List.length_append, List.length_replicate, List.length_take,
      min_eq_left hlen]
    omega
  · simp [List.take_append_of_le_length, List.take_replicate]

/-- C7 witness: `C7_window_padding` over a three-entry buffer with width 4 and
center 1: one zero pad followed by the three buffer entries. -/
theorem C7_window_padding_witness :
    live_preview (List.replicate 3 PreviewSample.zero) 4 1 =
      some (List.replicate 1 PreviewSample.zero ++
            (List.replicate 3 PreviewSample.zero).take 3) ∧
    (List.replicate 1 PreviewSample.zero ++
       (List.replicate 3 PreviewSample.zero).take 3).length = 4 ∧
    (List.replicate 1 PreviewSample.zero ++
       (List.replicate 3 PreviewSample.zero).take 3).take 1 =
      List.replicate 1 PreviewSample.zero :=
  C7_window_padding (List.replicate 3 PreviewSample.zero) 4 1
    (by decide) (by decide) (by decide)

/-! ## C8 — the overview read's chunk size comes from the declared total -/

/-- Shared evaluation: the overview chunk size for a track with 100 declared
preview-frames-equivalent (`n_frames = 100`, `sample_rate = 2205`, so the
conversion rate is exactly 1) at `target_size = 10` is 10.  All the `f64`
operations are exact here. -/
theorem overview_chunk_size_eval :
    Int.toNat ⌊((100 : Nat) : ℚ) * ((PREVIEW_SAMPLE_RATE : ℚ) / ((2205 : Nat) : ℚ)) /
      ((10 : Nat) : ℚ)⌋ = 10 := by
  have h1 : ((100 : Nat) : ℚ) * ((PREVIEW_SAMPLE_RATE : ℚ) / ((2205 : Nat) : ℚ)) /
      ((10 : Nat) : ℚ) = 10 := by
    norm_num [PREVIEW_SAMPLE_RATE]
  rw [h1]
  simp

/-- Helper: the number of entries `Track::preview` returns is the ceiling of
the CURRENT buffer length divided by the chunk size computed from the DECLARED
total frame count — with `k` abbreviating that chunk size. -/
theorem preview_length_eq (buf : List PreviewSample) (w nf sr k : Nat)
    (hsr : sr ≠ 0) (hw : w ≠ 0)
    (hk : Int.toNat ⌊(nf : ℚ) * ((PREVIEW_SAMPLE_RATE : ℚ) / (sr : ℚ)) / (w : ℚ)⌋ = k)
    (hkpos : k ≠ 0) :
    (Track.preview buf w (some nf) (some sr)).map List.length =
      some ((buf.length + k - 1) / k) := by
  simp only [Track.preview]
  rw [if_neg (by simp [hsr, hw]), hk, if_neg hkpos, Option.map_some',
    List.length_map, chunkList_length k (Nat.pos_of_ne_zero hkpos)]

/-- C8 counterexample: with `n_frames = 100`, `sample_rate = 2205` (so the
whole track's preview is 100 entries and the chunk size is 10) but a buffer
currently holding only 50 entries, `read_overview(10)` returns 5 entries, not
the claimed exactly-`target_size` 10: the partition size is computed from the
declared total, not from the current length. -/
theorem C8_partial_buffer_overview :
    (Track.preview (List.replicate 50 PreviewSample.zero) 10 (some 100) (some 2205)).map
      List.length = some 5 ∧
    ¬ ((5 : Nat) = 10) :=
  ⟨preview_length_eq (List.replicate 50 PreviewSample.zero) 10 100 2205 10
      (by decide) (by decide) overview_chunk_size_eval (by decide),
   by decide⟩

/-- C8 amended: `read_overview(target_size)` partitions the buffer into groups
of `⌊n_frames · (PREVIEW_SAMPLE_RATE / sample_rate) / target_size⌋` entries —
a size derived from the track's DECLARED total frame count, not from the
buffer's current length — averaging each group (dividing by the unfloored
group size); it therefore returns `⌈len / groupSize⌉` entries, which equals
`target_size` only when the buffer already holds the whole track's preview. -/
theorem C8_overview_chunked_by_declared_total (buf : List PreviewSample)
    (w nf sr k : Nat) (hsr : sr ≠ 0) (hw : w ≠ 0)
    (hk : Int.toNat ⌊(nf : ℚ) * ((PREVIEW_SAMPLE_RATE : ℚ) / (sr : ℚ)) / (w : ℚ)⌋ = k)
    (hkpos : k ≠ 0) :
    (Track.preview buf w (some nf) (some sr)).map List.length =
      some ((buf.length + k - 1) / k) :=
  preview_length_eq buf w nf sr k hsr hw hk hkpos

/-- C8 witness: `C8_overview_chunked_by_declared_total` on the full 100-entry
buffer, where the result count is exactly the target size 10. -/
theorem C8_overview_chunked_witness :
    (Track.preview (List.replicate 100 PreviewSample.zero) 10 (some 100) (some 2205)).map
      List.length = some 10 :=
  C8_overview_chunked_by_declared_total (List.replicate 100 PreviewSample.zero)
    10 100 2205 10 (by decide) (by decide) overview_chunk_size_eval (by decide)

/-! ## C9 — progress is neither optional nor clamped to 100 -/

/-- C9: `Track::progress` contradicts the claim (and its own doc comment "The
result is a number between 0 and 100"): with no declared total frame count it
returns `Some 0`, never `None`; and with one preview entry, sample rate
44100 Hz and a declared total of only 10 frames it returns `Some 200` — there
is no `min(100, ·)` clamp, only the saturating `as u8` cast at 255. -/
theorem C9_progress_not_clamped :
    Track.progress 5 none (some 44100) = some 0 ∧
    ¬ ((some 0 : Option Nat) = none) ∧
    Track.progress 1 (some 10) (some 44100) = some 200 ∧
    ¬ ((200 : Nat) ≤ 100) := by
  refine ⟨rfl, by decide, ?_, by decide⟩
  norm_num [Track.progress, PREVIEW_SAMPLE_RATE]
  rfl
end Flow
